import Mathlib

/-!
Verification of the JobPacker CLI job harvester (`jobpacker.py`) against its
natural-language specification.  The Python source is shallowly embedded:
JSON values become an inductive type, Python dicts become association lists
with Python's lookup semantics, `load_config`/`save_config` become functions
on an explicit file-state type, and the export converter (`export_jobs`)
becomes pure functions over an embedded record type.
-/

namespace JobPacker

/-! ## JSON values and Python dictionaries

A JSON value as produced by `json.load` / consumed by `json.dump`.
Numbers are restricted to integers, which covers every value appearing in
the configuration claims.
-/

inductive JVal where
  | jnull
  | jbool (b : Bool)
  | jint (n : Int)
  | jstr (s : String)
  | jarr (xs : List JVal)
  | jobj (kvs : List (String × JVal))

/-- Python dictionary lookup `d[k]` / `d.get(k)` on an association list
(first binding wins; parsed JSON objects have unique keys). -/
def dictLookup (kvs : List (String × JVal)) (k : String) : Option JVal :=
  match kvs with
  | [] => none
  | (k1, v) :: rest => if k1 = k then some v else dictLookup rest k

/-- `optOr a b` is `a` when present, else `b` (the lookup semantics of
`{**d1, **d2}`: the second dict wins, the first fills gaps). -/
def optOr (a b : Option JVal) : Option JVal :=
  match a with
  | some v => some v
  | none => b

/-- Embedding of Python's `{**a, **b}` dict merge: keys of `a` in order,
each taking `b`'s value when `b` also binds it, followed by the keys of `b`
that are not in `a`, in order. -/
def pyDictUpdate (a b : List (String × JVal)) : List (String × JVal) :=
  a.map (fun kv =>
    match dictLookup b kv.1 with
    | some v => (kv.1, v)
    | none => kv)
  ++ b.filter (fun kv => (dictLookup a kv.1).isNone)

/-- `DEFAULT_CONFIG` from `jobpacker.py` (lines 29-36). -/
def DEFAULT_CONFIG : List (String × JVal) :=
  [ ("default_search", .jstr "")
  , ("default_location", .jstr "USA")
  , ("results_per_site", .jint 15)
  , ("remote_only", .jbool false)
  , ("job_type", .jnull)
  , ("job_boards", .jarr
      [.jstr "indeed", .jstr "linkedin", .jstr "glassdoor",
       .jstr "zip_recruiter", .jstr "google"]) ]

/-- The six recognized configuration keys (the keys of `DEFAULT_CONFIG`). -/
def configKeys : List String :=
  [ "default_search", "default_location", "results_per_site"
  , "remote_only", "job_type", "job_boards" ]

/-- State of the configuration file as seen by `load_config`: missing,
unreadable (an `IOError` while opening/reading), undecodable (the bytes
are not valid text for the default encoding, so the read inside
`json.load` raises `UnicodeDecodeError`), corrupt (the text decodes but
`json.load` raises `JSONDecodeError`, which includes the empty file), or
successfully parsed to a JSON value. -/
inductive FileState where
  | missing
  | unreadable
  | undecodable
  | corrupt
  | parsed (j : JVal)

/-- A Python exception escaping the embedded code uncaught: `TypeError`
from `{**DEFAULT_CONFIG, **config}` when `config` is not a mapping;
`UnicodeDecodeError` from reading an undecodable configuration file (a
`ValueError`, a subclass of neither `json.JSONDecodeError` nor
`IOError`); and `OverflowError` from `int()` on an infinite float in the
salary derivation (not among the caught `ValueError`/`TypeError`). -/
inductive PyError where
  | typeError
  | unicodeDecodeError
  | overflowError
  deriving DecidableEq

/-- Embedding of `load_config` (`jobpacker.py` lines 45-55).  A missing
file, a read failure (`IOError`) and a parse failure (`JSONDecodeError`)
all return `DEFAULT_CONFIG`; an undecodable file raises
`UnicodeDecodeError`, which `except (json.JSONDecodeError, IOError)` does
not catch; a parsed JSON object is merged over the defaults with
`{**DEFAULT_CONFIG, **config}`; a parsed non-object makes that merge
raise `TypeError`, also uncaught. -/
def load_config (fs : FileState) : Except PyError (List (String × JVal)) :=
  match fs with
  | .missing => .ok DEFAULT_CONFIG
  | .unreadable => .ok DEFAULT_CONFIG
  | .undecodable => .error .unicodeDecodeError
  | .corrupt => .ok DEFAULT_CONFIG
  | .parsed (.jobj kvs) => .ok (pyDictUpdate DEFAULT_CONFIG kvs)
  | .parsed _ => .error .typeError

/-- Embedding of `save_config` (`jobpacker.py` lines 58-61): it writes
`json.dump(config, f, indent=2)` to the fixed path, so afterwards the file
parses back to exactly the saved JSON object (serialization followed by
parsing is the identity on embedded JSON values). -/
def save_config (config : List (String × JVal)) : FileState :=
  .parsed (.jobj config)

/-- Lookup of a key in the record returned by `load_config`, `none` when
`load_config` raises. -/
def loadedLookup (fs : FileState) (k : String) : Option JVal :=
  match load_config fs with
  | .ok d => dictLookup d k
  | .error _ => none

/-! ## Export converter: numbers and salary formatting -/

/-- A raw numeric field of a scraped job (`min_amount` / `max_amount`):
absent or `None`; the float `NaN` sentinel; a value on which both
`float(val)` and `int(val)` succeed, `int` yielding `n`; a float-coercible
non-NaN value on which `int(val)` raises `ValueError`/`TypeError` (e.g.
the numeric string `"100.5"`); an infinite float, on which `int(val)`
raises `OverflowError`; or a value whose coercion `float(val)` itself
raises (`ValueError`/`TypeError`, e.g. a non-numeric string). -/
inductive RawNum where
  | absent
  | nanv
  | num (n : Int)
  | fracStr
  | infty
  | uncoercible
  deriving DecidableEq

/-- Embedding of the nested `is_valid_number` helper of `export_jobs`
(`jobpacker.py` lines 274-281): not `None`, and not `NaN` after coercion
to float; a failed `float` coercion counts as invalid.  Note that
`float('inf')` and `int()`-rejecting numeric strings pass this check. -/
def is_valid_number (v : RawNum) : Bool :=
  match v with
  | .absent => false
  | .nanv => false
  | .uncoercible => false
  | .num _ => true
  | .fracStr => true
  | .infty => true

/-- Outcome of Python `int(val)`: the integer, an exception among the
caught `ValueError`/`TypeError`, or an `OverflowError`. -/
inductive IntCoerce where
  | ok (n : Int)
  | caught
  | overflow
  deriving DecidableEq

/-- `int(val)` on a raw value.  Only values passing `is_valid_number`
reach an `int()` call in the code; on the invalid values `int()` would
raise `ValueError`/`TypeError` as well. -/
def intOf (v : RawNum) : IntCoerce :=
  match v with
  | .num n => .ok n
  | .fracStr => .caught
  | .infty => .overflow
  | .absent => .caught
  | .nanv => .caught
  | .uncoercible => .caught

/-- Insert a `,` after every group of three characters of a digit list
given least-significant first (the grouping of Python's `{:,}` format). -/
def commaRev (cs : List Char) : List Char :=
  match cs with
  | [] => []
  | [a] => [a]
  | [a, b] => [a, b]
  | [a, b, c] => [a, b, c]
  | a :: b :: c :: rest => a :: b :: c :: ',' :: commaRev rest

/-- `f"{n:,}"` for a natural number: decimal digits with a thousands
separator every three digits. -/
def natCommas (n : Nat) : String :=
  String.mk ((commaRev (Nat.repr n).data.reverse).reverse)

/-- `f"{i:,}"` for an integer. -/
def intCommas (i : Int) : String :=
  if i < 0 then "-" ++ natCommas i.natAbs else natCommas i.natAbs

/-- Embedding of the salary derivation of `export_jobs` (`jobpacker.py`
lines 269-291), the surrounding `try/except (ValueError, TypeError)`
included: the branch chain runs inside the `try`; the `int()` coercions
of the taken branch evaluate left to right; an `int()` raising
`ValueError`/`TypeError` is caught and leaves `salary = ""`; an `int()`
raising `OverflowError` (an infinite float) escapes uncaught. -/
def formatSalary (minS maxS : RawNum) : Except PyError String :=
  if is_valid_number minS && is_valid_number maxS then
    match intOf minS with
    | .overflow => .error .overflowError
    | .caught => .ok ""
    | .ok a =>
      match intOf maxS with
      | .overflow => .error .overflowError
      | .caught => .ok ""
      | .ok b => .ok ("$" ++ intCommas a ++ " - $" ++ intCommas b)
  else if is_valid_number minS then
    match intOf minS with
    | .overflow => .error .overflowError
    | .caught => .ok ""
    | .ok a => .ok ("$" ++ intCommas a ++ "+")
  else if is_valid_number maxS then
    match intOf maxS with
    | .overflow => .error .overflowError
    | .caught => .ok ""
    | .ok b => .ok ("Up to $" ++ intCommas b)
  else
    .ok ""

/-! ## Export converter: date normalization -/

/-- The character `'0' + (n % 10)`. -/
def digitChar (n : Nat) : Char := Char.ofNat (48 + n % 10)

/-- Zero-padded two-digit decimal rendering (`%02d`, faithful for
`n < 100`, which holds for every calendar/clock field produced by
`datetime`). -/
def pad2 (n : Nat) : String :=
  String.mk [digitChar (n / 10), digitChar n]

/-- Zero-padded four-digit decimal rendering (`%04d`; `strftime` `%Y` for
the years `datetime` supports, `1 ≤ year ≤ 9999`). -/
def pad4 (n : Nat) : String :=
  String.mk [digitChar (n / 1000), digitChar (n / 100), digitChar (n / 10), digitChar n]

/-- `strftime("%Y-%m-%d")` of a calendar date. -/
def fmtCal (y m d : Nat) : String :=
  pad4 y ++ "-" ++ pad2 m ++ "-" ++ pad2 d

/-- A raw `date_posted` field: `None`/absent, a plain value rendered by
`str` (a string; its truthiness is non-emptiness), or a date-like object
exposing `strftime`. -/
inductive DateVal where
  | dnone
  | dstr (s : String)
  | dcal (y m d : Nat)
  deriving DecidableEq

/-- Python truthiness of a raw `date_posted` value (`if date_posted:`). -/
def pyTruthy (v : DateVal) : Bool :=
  match v with
  | .dnone => false
  | .dstr s => !(s == "")
  | .dcal _ _ _ => true

/-- `hasattr(date_posted, "strftime")`. -/
def hasStrftime (v : DateVal) : Bool :=
  match v with
  | .dcal _ _ _ => true
  | _ => false

/-- `str(date_posted)` for the non-`strftime` branch. -/
def pyStrDate (v : DateVal) : String :=
  match v with
  | .dstr s => s
  | .dnone => "None"
  | .dcal y m d => fmtCal y m d

/-- `strftime("%Y-%m-%d")` of a date-like value (`""` on the other
constructors, which the caller never reaches). -/
def fmtCalOf (v : DateVal) : String :=
  match v with
  | .dcal y m d => fmtCal y m d
  | _ => ""

/-- Embedding of the `date_posted` derivation of `export_jobs`
(`jobpacker.py` lines 259-267).  `today` stands for
`datetime.now().strftime("%Y-%m-%d")`. -/
def deriveDatePosted (v : DateVal) (today : String) : String :=
  if pyTruthy v then
    if hasStrftime v then fmtCalOf v else (pyStrDate v).take 10
  else today

/-! ## Export converter: filename derivation -/

/-- `search_term.lower()` (ASCII case folding; every character of the
specified inputs is ASCII). -/
def lowerStr (s : String) : String := String.mk (s.data.map Char.toLower)

/-- `re.sub(r'[^\w\-]', '_', s)`: replace every character that is not
alphanumeric, `_` or `-` with `_` (ASCII reading of `\w`). -/
def replaceNonWord (cs : List Char) : List Char :=
  cs.map (fun c => if c.isAlphanum || c == '_' || c == '-' then c else '_')

/-- `s.strip('_')`: drop leading and trailing underscores. -/
def stripUnderscore (cs : List Char) : List Char :=
  ((cs.dropWhile (fun c => c == '_')).reverse.dropWhile (fun c => c == '_')).reverse

/-- `re.sub(r'_+', '_', s)`: collapse every run of underscores to one. -/
def collapseUnderscore (cs : List Char) : List Char :=
  match cs with
  | [] => []
  | [a] => [a]
  | a :: b :: rest =>
    if a == '_' && b == '_' then collapseUnderscore (b :: rest)
    else a :: collapseUnderscore (b :: rest)

/-- Embedding of the filename-base sanitization of `export_jobs`
(`jobpacker.py` lines 243-244): the literal `"jobs"` for an empty search
term, otherwise lower-case, replace non-word characters, strip edge
underscores; in both cases runs of underscores are then collapsed. -/
def safeSearchBase (term : String) : String :=
  let s0 := if term = "" then "jobs".data
            else stripUnderscore (replaceNonWord (lowerStr term).data)
  String.mk (collapseUnderscore s0)

/-- Modelled from the spec's wording, for comparison with the code's
`safeSearchBase`: lower-case the term (or use `"jobs"` when empty),
replace non-word characters with `_`, collapse repeated underscores, and
then strip leading/trailing underscores — the spec lists collapsing
before stripping, where the code strips before collapsing. -/
def specSanitizeBase (term : String) : String :=
  if term = "" then "jobs"
  else String.mk (stripUnderscore (collapseUnderscore (replaceNonWord (lowerStr term).data)))

/-- The timestamp taken from `datetime.now().astimezone()` at export time:
local calendar date, local clock time and the local UTC offset. -/
structure Timestamp where
  year : Nat
  month : Nat
  day : Nat
  hour : Nat
  minute : Nat
  second : Nat
  tzNeg : Bool
  tzH : Nat
  tzM : Nat

/-- `now.strftime('%Y%m%d')`. -/
def dateStr8 (ts : Timestamp) : String :=
  pad4 ts.year ++ pad2 ts.month ++ pad2 ts.day

/-- `now.strftime('%H%M%S')`. -/
def timeStr6 (ts : Timestamp) : String :=
  pad2 ts.hour ++ pad2 ts.minute ++ pad2 ts.second

/-- `now.strftime('%z')`, e.g. `-0500` or `+0100`. -/
def tzStr (ts : Timestamp) : String :=
  (if ts.tzNeg then "-" else "+") ++ pad2 ts.tzH ++ pad2 ts.tzM

/-- The default export filename of `export_jobs` (`jobpacker.py` line
250): `<base>_<YYYYMMDD>_<HHMMSS><offset>.json`. -/
def defaultFilename (term : String) (ts : Timestamp) : String :=
  safeSearchBase term ++ "_" ++ dateStr8 ts ++ "_" ++ timeStr6 ts ++ tzStr ts ++ ".json"

/-- The fields of `datetime.now().astimezone()` stay inside the ranges
`datetime` guarantees (year at most 9999, month 1-12, and so on); the
offset fields of `%z` are hours and minutes below 100. -/
def tsValid (ts : Timestamp) : Prop :=
  ts.year ≤ 9999 ∧ ts.month ≤ 12 ∧ ts.day ≤ 31 ∧ ts.hour ≤ 23 ∧
    ts.minute ≤ 59 ∧ ts.second ≤ 59 ∧ ts.tzH ≤ 23 ∧ ts.tzM ≤ 59

instance (ts : Timestamp) : Decidable (tsValid ts) := by
  unfold tsValid; infer_instance

/-- The shape demanded by the spec's filename pattern
`<base>_\d{8}_\d{6}[+-]\d{4}\.json`. -/
def filenameMatches (base fname : String) : Prop :=
  ∃ d t off : String,
    fname = base ++ "_" ++ d ++ "_" ++ t ++ off ++ ".json"
    ∧ d.length = 8 ∧ d.data.all Char.isDigit = true
    ∧ t.length = 6 ∧ t.data.all Char.isDigit = true
    ∧ off.length = 5
    ∧ (off.data.head? = some '+' ∨ off.data.head? = some '-')
    ∧ off.data.tail.all Char.isDigit = true

/-! ## Export converter: identifiers (`uuid.uuid4()`)

`uuid.uuid4()` draws 16 random bytes, forces the version nibble (index 12)
to `4` and the two top bits of the variant nibble (index 16) to `10`, and
renders the 32 nibbles as lowercase hex in 8-4-4-4-12 groups.  The random
draw is modelled as an explicit list of nibbles.
-/

/-- One converted Cleansheet record (the dict literal of `jobpacker.py`
lines 293-305). -/
structure ExportRecord where
  id : String
  company : String
  title : String
  location : String
  url : String
  description : String
  salary : String
  datePosted : String
  source : String
  status : String
  tags : List String
  deriving DecidableEq

/-- The JSON object of one converted record, fields in source order. -/
def recordToJObj (r : ExportRecord) : List (String × JVal) :=
  [ ("id", .jstr r.id)
  , ("company", .jstr r.company)
  , ("title", .jstr r.title)
  , ("location", .jstr r.location)
  , ("url", .jstr r.url)
  , ("description", .jstr r.description)
  , ("salary", .jstr r.salary)
  , ("datePosted", .jstr r.datePosted)
  , ("source", .jstr r.source)
  , ("status", .jstr r.status)
  , ("tags", .jarr (r.tags.map JVal.jstr)) ]

/-- The JSON document `export_jobs` actually writes (`jobpacker.py` line
311) once the conversion loop completes: `json.dump(cleansheet_jobs, f,
...)` on the bare converted list. -/
def writtenExportDoc (records : List ExportRecord) : JVal :=
  .jarr (records.map (fun r => .jobj (recordToJObj r)))

/-- Whether a JSON value is an object. -/
def isJObjB (j : JVal) : Bool :=
  match j with
  | .jobj _ => true
  | _ => false

/-- Key lookup on a JSON value that is an object, `none` otherwise. -/
def jvalObjLookup (j : JVal) (k : String) : Option JVal :=
  match j with
  | .jobj kvs => dictLookup kvs k
  | _ => none

/-! ## Concrete inputs used by the witnesses -/

/-- A saved configuration record with every recognized key present and a
null `job_type`. -/
def roundTripConfig : List (String × JVal) :=
  [ ("default_search", .jstr "machine learning")
  , ("default_location", .jstr "USA")
  , ("results_per_site", .jint 15)
  , ("remote_only", .jbool false)
  , ("job_type", .jnull)
  , ("job_boards", .jarr [.jstr "indeed"]) ]

/-- A partial configuration file with two recognized keys. -/
def partialConfig : List (String × JVal) :=
  [ ("default_search", .jstr "test search"), ("results_per_site", .jint 50) ]

/-- A concrete export timestamp. -/
def witnessTs : Timestamp :=
  { year := 2026, month := 10, day := 12, hour := 14, minute := 30
  , second := 5, tzNeg := true, tzH := 5, tzM := 0 }

end JobPacker

namespace JobPacker

/-! ## Lemmas about the dict merge -/

theorem optOr_none_right (a : Option JVal) : optOr a none = a := by
  cases a <;> rfl

theorem optOr_isSome_right (a : Option JVal) (v : JVal) :
    (optOr a (some v)).isSome = true := by
  cases a <;> rfl

theorem dictLookup_map_part (a b : List (String × JVal)) (rest : List (String × JVal))
    (k : String) :
    dictLookup
      ((a.map (fun kv =>
        match dictLookup b kv.1 with
        | some v => (kv.1, v)
        | none => kv)) ++ rest) k =
      match dictLookup a k with
      | some v => optOr (dictLookup b k) (some v)
      | none => dictLookup rest k := by
  induction a with
  | nil => simp [dictLookup]
  | cons kv a ih =>
    obtain ⟨k1, v1⟩ := kv
    by_cases hk : k1 = k
    · subst hk
      cases hb : dictLookup b k1 <;>
        simp [dictLookup, hb, optOr]
    · cases hb : dictLookup b k1 <;>
        simp [dictLookup, hb, hk, ih]

theorem dictLookup_filter_part (a b : List (String × JVal)) (k : String) :
    dictLookup (b.filter (fun kv => (dictLookup a kv.1).isNone)) k =
      match dictLookup a k with
      | some _ => none
      | none => dictLookup b k := by
  induction b with
  | nil => cases h : dictLookup a k <;> simp [dictLookup, h]
  | cons kv b ih =>
    obtain ⟨k1, v1⟩ := kv
    by_cases hk : k1 = k
    · subst hk
      cases h : dictLookup a k1 <;>
        simp [List.filter_cons, dictLookup, h, ih]
    · cases h : dictLookup a k1 <;>
        cases h2 : (dictLookup a k) <;>
        simp [List.filter_cons, dictLookup, h, hk, ih, h2]

/-- The lookup semantics of `{**a, **b}`: `b` wins, `a` fills the gaps. -/
theorem dictLookup_pyDictUpdate (a b : List (String × JVal)) (k : String) :
    dictLookup (pyDictUpdate a b) k = optOr (dictLookup b k) (dictLookup a k) := by
  unfold pyDictUpdate
  rw [dictLookup_map_part a b _ k]
  cases h : dictLookup a k
  · rw [dictLookup_filter_part a b k, h, optOr_none_right]
  · rfl

/-- Lookup in a successfully loaded configuration: the file value when
present, else the default. -/
theorem loadedLookup_parsed (kvs : List (String × JVal)) (k : String) :
    loadedLookup (.parsed (.jobj kvs)) k =
      optOr (dictLookup kvs k) (dictLookup DEFAULT_CONFIG k) := by
  unfold loadedLookup load_config
  exact dictLookup_pyDictUpdate DEFAULT_CONFIG kvs k

theorem dictLookup_eq_none (d : List (String × JVal)) (k : String)
    (h : k ∉ d.map Prod.fst) : dictLookup d k = none := by
  induction d with
  | nil => rfl
  | cons kv rest ih =>
    obtain ⟨k1, v1⟩ := kv
    rw [List.map_cons, List.mem_cons] at h
    push_neg at h
    obtain ⟨h1, h2⟩ := h
    show (if k1 = k then some v1 else dictLookup rest k) = none
    rw [if_neg (fun he => h1 he.symm)]
    exact ih h2

theorem default_config_keys : DEFAULT_CONFIG.map Prod.fst = configKeys := rfl

/-! ## Claim theorems: configuration store -/

/-- Claim C5, counterexample: a corrupt configuration file whose bytes do
not decode (UTF-16 or binary garbage saved as `config.json`) makes the
read inside `json.load` raise `UnicodeDecodeError` — a `ValueError`, a
subclass of neither `json.JSONDecodeError` nor `IOError` — so
`load_config` raises instead of returning the default record as it does
for a missing file. -/
theorem c5_undecodable_counterexample :
    load_config .undecodable = .error .unicodeDecodeError
    ∧ load_config .undecodable ≠ load_config .missing :=
  ⟨rfl, fun h => Except.noConfusion h⟩

/-- Claim C5 (amended): `load_config` on a corrupt-but-decodable file (any
`json.load` `JSONDecodeError`, the empty file included) and on an
unreadable file behaves exactly as on a missing file — the untouched
default record, with no error surfaced; but a corrupt file whose bytes
cannot be decoded raises `UnicodeDecodeError` uncaught. -/
theorem c5_corrupt_equals_missing :
    load_config .corrupt = load_config .missing
    ∧ load_config .unreadable = load_config .missing
    ∧ load_config .missing = .ok DEFAULT_CONFIG
    ∧ load_config .undecodable = .error .unicodeDecodeError :=
  ⟨rfl, rfl, rfl, rfl⟩

/-- Claim C10: a configuration file holding valid JSON that is not an
object (an array, a string, a number, `null`) makes `load_config` raise an
uncaught `TypeError` from `{**DEFAULT_CONFIG, **config}` instead of
returning a record: the silent fallback covers only read and parse
failures. -/
theorem c10_non_object_config_raises :
    load_config (.parsed (.jarr [.jint 1, .jint 2])) = .error .typeError
    ∧ load_config (.parsed (.jstr "oops")) = .error .typeError
    ∧ load_config (.parsed (.jint 3)) = .error .typeError
    ∧ load_config (.parsed .jnull) = .error .typeError :=
  ⟨rfl, rfl, rfl, rfl⟩

/-- Claim C2, counterexample: loading a file whose object carries the
unrecognized key `"unknown_key"` yields a record that still contains that
key — unknown keys are not dropped by `{**DEFAULT_CONFIG, **config}`. -/
theorem c2_unknown_key_kept :
    loadedLookup (.parsed (.jobj [("unknown_key", .jint 1)])) "unknown_key"
      = some (.jint 1)
    ∧ "unknown_key" ∉ configKeys :=
  ⟨rfl, by decide⟩

/-- Claim C2 (amended): the record returned by `load_config` on a parsed
object binds every key of the file (recognized or not) to the file's value
and fills the remaining recognized keys from the defaults; in particular
every recognized key is present, but unknown file keys are preserved, not
dropped. -/
theorem c2_merge_keeps_file_keys (kvs : List (String × JVal)) (k : String) :
    loadedLookup (.parsed (.jobj kvs)) k
      = optOr (dictLookup kvs k) (dictLookup DEFAULT_CONFIG k)
    ∧ configKeys.all
        (fun k2 => (loadedLookup (.parsed (.jobj kvs)) k2).isSome) = true := by
  constructor
  · exact loadedLookup_parsed kvs k
  · simp only [configKeys, List.all_cons, List.all_nil, Bool.and_eq_true,
      Bool.and_true]
    refine ⟨?_, ?_, ?_, ?_, ?_, ?_⟩ <;>
      (rw [loadedLookup_parsed]; exact optOr_isSome_right _ _)

/-- Claim C4: loading a parsed configuration object keeps every key
present in the file verbatim and takes every missing key from
`DEFAULT_CONFIG`. -/
theorem c4_defaults_fill_missing (kvs : List (String × JVal)) (k : String) :
    (dictLookup kvs k = none →
      loadedLookup (.parsed (.jobj kvs)) k = dictLookup DEFAULT_CONFIG k)
    ∧ ∀ v : JVal, dictLookup kvs k = some v →
      loadedLookup (.parsed (.jobj kvs)) k = some v := by
  constructor
  · intro h; rw [loadedLookup_parsed, h]; rfl
  · intro v h; rw [loadedLookup_parsed, h]; rfl

/-- Witness for C4 at the partial file of the repository's own test
(`test_load_config_merges_with_defaults`): the missing key
`default_location` comes from the defaults, the present key
`results_per_site` keeps the file's value. -/
theorem c4_witness :
    (dictLookup partialConfig "default_location" = none
      ∧ loadedLookup (.parsed (.jobj partialConfig)) "default_location"
          = dictLookup DEFAULT_CONFIG "default_location")
    ∧ dictLookup partialConfig "results_per_site" = some (.jint 50)
    ∧ loadedLookup (.parsed (.jobj partialConfig)) "results_per_site"
        = some (.jint 50) :=
  ⟨⟨rfl, (c4_defaults_fill_missing partialConfig "default_location").1 rfl⟩,
   rfl, (c4_defaults_fill_missing partialConfig "results_per_site").2 (.jint 50) rfl⟩

/-- Claim C6: saving a well-formed record (one binding every recognized
key; values may be null) and loading it back returns an equal record —
equal as a Python dict, i.e. with identical lookups on every key. -/
theorem c6_save_load_roundtrip (x : List (String × JVal)) (k : String)
    (hx : ∀ k2 ∈ configKeys, (dictLookup x k2).isSome = true) :
    loadedLookup (save_config x) k = dictLookup x k := by
  rw [show save_config x = .parsed (.jobj x) from rfl, loadedLookup_parsed]
  by_cases hk : k ∈ configKeys
  · have hs := hx k hk
    cases hval : dictLookup x k with
    | none => rw [hval] at hs; simp at hs
    | some v => rfl
  · have hd : dictLookup DEFAULT_CONFIG k = none := by
      apply dictLookup_eq_none
      rw [default_config_keys]
      exact hk
    rw [hd, optOr_none_right]

/-- Witness for C6: the concrete record with a null `job_type`
round-trips; its `job_type` loads back as JSON null. -/
theorem c6_witness :
    loadedLookup (save_config roundTripConfig) "job_type" = some JVal.jnull :=
  (c6_save_load_roundtrip roundTripConfig "job_type" (by decide)).trans rfl

/-! ## Claim theorems: salary and date derivation -/

/-- Claim C3, counterexample: `float('inf')` (here `.infty`) is a valid
number per the claim's own definition — present, float-coercible, not NaN
— yet `int()` on it raises `OverflowError`, which `except (ValueError,
TypeError)` does not catch, so the code raises, contradicting the claim's
"never raises"; likewise the numeric string `"100.5"` (here `.fracStr`)
is valid, yet the caught `int()` `ValueError` makes the code produce `""`
instead of the claimed thousands-separated range. -/
theorem c3_salary_counterexample :
    is_valid_number .infty = true
    ∧ formatSalary .infty (.num 100000) = .error .overflowError
    ∧ is_valid_number .fracStr = true
    ∧ formatSalary .fracStr (.num 150000) = .ok "" :=
  ⟨rfl, rfl, rfl, rfl⟩

theorem valid_of_intOf_ok (a : RawNum) (x : Int) (h : intOf a = .ok x) :
    is_valid_number a = true := by
  cases a <;> simp [intOf, is_valid_number] at h ⊢

/-- Claim C3 (amended): a value is valid iff it is present and not NaN
when coerced to float (a `float()` failure counts as invalid); provided
every `int()` coercion of the taken branch succeeds, the derived salary
string is the thousands-separated range when both values are valid,
`"$<min>+"` when only the minimum is, `"Up to $<max>"` when only the
maximum is, and empty otherwise, and the spec's five concrete examples
evaluate as stated.  However, an `int()` failure with
`ValueError`/`TypeError` inside the taken branch (e.g. the numeric string
`"100.5"`) yields the empty string via the surrounding `try/except`, and
an infinite float makes `int()` raise `OverflowError`, which is not
caught and propagates out of the export. -/
theorem c3_salary_formatting :
    (∀ (a b : RawNum) (x y : Int), is_valid_number a = true → is_valid_number b = true →
        intOf a = .ok x → intOf b = .ok y →
        formatSalary a b = .ok ("$" ++ intCommas x ++ " - $" ++ intCommas y))
    ∧ (∀ (a b : RawNum) (x : Int), is_valid_number a = true → is_valid_number b = false →
        intOf a = .ok x → formatSalary a b = .ok ("$" ++ intCommas x ++ "+"))
    ∧ (∀ (a b : RawNum) (y : Int), is_valid_number a = false → is_valid_number b = true →
        intOf b = .ok y → formatSalary a b = .ok ("Up to $" ++ intCommas y))
    ∧ (∀ a b : RawNum, is_valid_number a = false → is_valid_number b = false →
        formatSalary a b = .ok "")
    ∧ (∀ a b : RawNum, is_valid_number a = true → intOf a = .caught →
        formatSalary a b = .ok "")
    ∧ (∀ (a b : RawNum) (x : Int), is_valid_number b = true →
        intOf a = .ok x → intOf b = .caught → formatSalary a b = .ok "")
    ∧ (∀ a b : RawNum, is_valid_number a = false → is_valid_number b = true →
        intOf b = .caught → formatSalary a b = .ok "")
    ∧ (∀ a b : RawNum, is_valid_number a = true → intOf a = .overflow →
        formatSalary a b = .error .overflowError)
    ∧ (∀ (a b : RawNum) (x : Int), is_valid_number b = true →
        intOf a = .ok x → intOf b = .overflow →
        formatSalary a b = .error .overflowError)
    ∧ (∀ a b : RawNum, is_valid_number a = false → is_valid_number b = true →
        intOf b = .overflow → formatSalary a b = .error .overflowError)
    ∧ formatSalary (.num 100000) (.num 150000) = .ok "$100,000 - $150,000"
    ∧ formatSalary (.num 80000) .absent = .ok "$80,000+"
    ∧ formatSalary .absent (.num 120000) = .ok "Up to $120,000"
    ∧ formatSalary .nanv .nanv = .ok ""
    ∧ formatSalary .nanv (.num 100000) = .ok "Up to $100,000" := by
  refine ⟨?_, ?_, ?_, ?_, ?_, ?_, ?_, ?_, ?_, ?_,
    rfl, rfl, rfl, rfl, rfl⟩
  · intro a b x y ha hb hia hib
    simp [formatSalary, ha, hb, hia, hib]
  · intro a b x ha hb hia
    simp [formatSalary, ha, hb, hia]
  · intro a b y ha hb hib
    simp [formatSalary, ha, hb, hib]
  · intro a b ha hb
    simp [formatSalary, ha, hb]
  · intro a b ha hia
    cases hb : is_valid_number b <;> simp [formatSalary, ha, hb, hia]
  · intro a b x hb hia hib
    have ha := valid_of_intOf_ok a x hia
    simp [formatSalary, ha, hb, hia, hib]
  · intro a b ha hb hib
    simp [formatSalary, ha, hb, hib]
  · intro a b ha hia
    cases hb : is_valid_number b <;> simp [formatSalary, ha, hb, hia]
  · intro a b x hb hia hib
    have ha := valid_of_intOf_ok a x hia
    simp [formatSalary, ha, hb, hia, hib]
  · intro a b ha hb hib
    simp [formatSalary, ha, hb, hib]

/-- Witness for C3: the one-sided branch applied at `(5000, absent)`. -/
theorem c3_witness :
    formatSalary (.num 5000) .absent = .ok ("$" ++ intCommas 5000 ++ "+") :=
  c3_salary_formatting.2.1 (.num 5000) .absent 5000 rfl rfl rfl

/-- Claim C8, counterexample: `date_posted = ""` is a non-null value, so
the claim demands the first 10 characters of its string form (the empty
string), but the code's truthiness test sends it to the current-date
branch instead. -/
theorem c8_empty_string_date :
    deriveDatePosted (.dstr "") "2026-10-12" = "2026-10-12"
    ∧ ("" : String).take 10 = ""
    ∧ ("2026-10-12" : String) ≠ "" :=
  ⟨rfl, rfl, by decide⟩

/-- Claim C8 (amended): the derived `datePosted` is the value formatted as
`YYYY-MM-DD` when it exposes `strftime`; else the first 10 characters of
its string form when it is a truthy value (non-null and non-empty); else
— for `None` and for the falsy empty string — the current local date. -/
theorem c8_date_normalization :
    (∀ (y m d : Nat) (today : String),
        deriveDatePosted (.dcal y m d) today = fmtCal y m d)
    ∧ (∀ (s today : String), s ≠ "" →
        deriveDatePosted (.dstr s) today = s.take 10)
    ∧ (∀ today : String, deriveDatePosted .dnone today = today)
    ∧ (∀ today : String, deriveDatePosted (.dstr "") today = today) := by
  refine ⟨fun y m d today => rfl, ?_, fun today => rfl, fun today => rfl⟩
  intro s today hs
  simp [deriveDatePosted, pyTruthy, hasStrftime, pyStrDate, hs]

/-- Witness for C8 at the test's plain date string: it is truncated to its
first 10 characters. -/
theorem c8_witness :
    deriveDatePosted (.dstr "2025-01-15T10:30:00") "2026-10-12"
      = ("2025-01-15T10:30:00" : String).take 10 :=
  c8_date_normalization.2.1 "2025-01-15T10:30:00" "2026-10-12" (by decide)

/-! ## Claim theorems: export document shape (C1) -/

/-- Claim C1: the code violates it.  `export_jobs` passes the bare list
`cleansheet_jobs` to `json.dump`, so whenever the export reaches the
write, the written document is a top-level JSON array — for every
converted record list, hence for every input: it is never an object and
has no `"exportType"` key, contradicting the spec and the repository's
own test `test_export_creates_valid_json_structure`, which asserts
`data["exportType"] == "jobspy_harvest"` and `data["jobs"]`. -/
theorem c1_export_writes_bare_array :
    ∀ records : List ExportRecord,
      isJObjB (writtenExportDoc records) = false
      ∧ jvalObjLookup (writtenExportDoc records) "exportType" = none :=
  fun _ => ⟨rfl, rfl⟩

/-! ## Filename derivation (C7) -/

theorem digitChar_isDigit (n : Nat) : (digitChar n).isDigit = true := by
  unfold digitChar
  have h : n % 10 < 10 := Nat.mod_lt _ (by decide)
  generalize hk : n % 10 = k at h ⊢
  interval_cases k <;> decide

theorem pad2_length (n : Nat) : (pad2 n).length = 2 := rfl

theorem pad4_length (n : Nat) : (pad4 n).length = 4 := rfl

theorem pad2_digits (n : Nat) : (pad2 n).data.all Char.isDigit = true := by
  simp [pad2, List.all_cons, digitChar_isDigit]

theorem pad4_digits (n : Nat) : (pad4 n).data.all Char.isDigit = true := by
  simp [pad4, List.all_cons, digitChar_isDigit]

theorem dateStr8_length (ts : Timestamp) : (dateStr8 ts).length = 8 := by
  simp [dateStr8, String.length_append, pad4_length, pad2_length]

theorem dateStr8_digits (ts : Timestamp) :
    (dateStr8 ts).data.all Char.isDigit = true := by
  simp [dateStr8, String.data_append, List.all_append, pad4_digits, pad2_digits]

theorem timeStr6_length (ts : Timestamp) : (timeStr6 ts).length = 6 := by
  simp [timeStr6, String.length_append, pad2_length]

theorem timeStr6_digits (ts : Timestamp) :
    (timeStr6 ts).data.all Char.isDigit = true := by
  simp [timeStr6, String.data_append, List.all_append, pad2_digits]

theorem tzStr_length (ts : Timestamp) : (tzStr ts).length = 5 := by
  cases hneg : ts.tzNeg <;>
    simp [tzStr, hneg, String.length_append, pad2_length] <;> rfl

theorem tzStr_head (ts : Timestamp) :
    (tzStr ts).data.head? = some '+' ∨ (tzStr ts).data.head? = some '-' := by
  cases hneg : ts.tzNeg
  · exact Or.inl (by simp [tzStr, hneg, String.data_append])
  · exact Or.inr (by simp [tzStr, hneg, String.data_append])

theorem tzStr_tail_digits (ts : Timestamp) :
    (tzStr ts).data.tail.all Char.isDigit = true := by
  cases hneg : ts.tzNeg <;>
    simp [tzStr, hneg, String.data_append, List.all_append, pad2_digits]

theorem collapse_cons_of (a : Char) (t : List Char)
    (h : ¬(a = '_' ∧ t.head? = some '_')) :
    collapseUnderscore (a :: t) = a :: collapseUnderscore t := by
  cases t with
  | nil => rfl
  | cons b t2 =>
    have hb : (a == '_' && b == '_') = false := by
      by_cases h1 : a = '_' <;> by_cases h2 : b = '_' <;>
        simp [h1, h2] at h ⊢
    simp [collapseUnderscore, hb]

theorem collapse_cons_us (t2 : List Char) :
    collapseUnderscore ('_' :: '_' :: t2) = collapseUnderscore ('_' :: t2) := by
  simp [collapseUnderscore]

theorem collapse_append_last (l : List Char) (c : Char) :
    collapseUnderscore (l ++ [c]) =
      if l.getLast? = some '_' ∧ c = '_' then collapseUnderscore l
      else collapseUnderscore l ++ [c] := by
  induction l with
  | nil => simp [collapseUnderscore]
  | cons a t ih =>
    cases t with
    | nil =>
      by_cases h1 : a = '_' <;> by_cases h2 : c = '_' <;>
        simp [collapseUnderscore, h1, h2]
    | cons b t2 =>
      have hstep : collapseUnderscore (a :: b :: (t2 ++ [c])) =
          if a == '_' && b == '_' then collapseUnderscore (b :: (t2 ++ [c]))
          else a :: collapseUnderscore (b :: (t2 ++ [c])) := by
        simp [collapseUnderscore]
      have hlast : (a :: b :: t2).getLast? = (b :: t2).getLast? :=
        List.getLast?_cons_cons ..
      rw [show (a :: b :: t2) ++ [c] = a :: b :: (t2 ++ [c]) from rfl, hstep,
        show b :: (t2 ++ [c]) = (b :: t2) ++ [c] from rfl, ih, hlast]
      by_cases hab : (a == '_' && b == '_') = true
      · rw [hab]
        simp only [if_true]
        by_cases hc : (b :: t2).getLast? = some '_' ∧ c = '_'
        · rw [if_pos hc, if_pos hc]
          have h1 : a = '_' := by
            have := hab; simp [Bool.and_eq_true, beq_iff_eq] at this; exact this.1
          have h2 : b = '_' := by
            have := hab; simp [Bool.and_eq_true, beq_iff_eq] at this; exact this.2
          subst h1; subst h2
          rw [collapse_cons_us]
        · rw [if_neg hc, if_neg hc]
          have h1 : a = '_' := by
            have := hab; simp [Bool.and_eq_true, beq_iff_eq] at this; exact this.1
          have h2 : b = '_' := by
            have := hab; simp [Bool.and_eq_true, beq_iff_eq] at this; exact this.2
          subst h1; subst h2
          rw [collapse_cons_us]
      · rw [Bool.not_eq_true] at hab
        rw [hab]
        simp only [Bool.false_eq_true, if_false]
        have hcons : collapseUnderscore (a :: b :: t2) =
            a :: collapseUnderscore (b :: t2) := by
          apply collapse_cons_of
          intro hx
          obtain ⟨hx1, hx2⟩ := hx
          have hb2 : b = '_' := by simpa using hx2
          subst hx1; subst hb2
          simp at hab
        by_cases hc : (b :: t2).getLast? = some '_' ∧ c = '_'
        · rw [if_pos hc, if_pos hc, hcons]
        · rw [if_neg hc, if_neg hc, hcons]
          rfl

theorem collapse_reverse (l : List Char) :
    collapseUnderscore l.reverse = (collapseUnderscore l).reverse := by
  induction l with
  | nil => rfl
  | cons a t ih =>
    rw [List.reverse_cons, collapse_append_last, List.getLast?_reverse]
    by_cases hc : t.head? = some '_' ∧ a = '_'
    · rw [if_pos hc, ih]
      obtain ⟨hh, rfl⟩ := hc
      cases t with
      | nil => simp at hh
      | cons b t2 =>
        have hb : b = '_' := by simpa using hh
        subst hb
        rw [collapse_cons_us]
    · rw [if_neg hc, ih,
        collapse_cons_of a t (fun hx => hc ⟨hx.2, hx.1⟩), List.reverse_cons]

theorem collapse_dropWhile (l : List Char) :
    collapseUnderscore (l.dropWhile (fun c => c == '_')) =
      (collapseUnderscore l).dropWhile (fun c => c == '_') := by
  induction l with
  | nil => rfl
  | cons a t ih =>
    by_cases ha : a = '_'
    · subst ha
      rw [show ('_' :: t).dropWhile (fun c => c == '_')
            = t.dropWhile (fun c => c == '_') from rfl]
      cases t with
      | nil => rfl
      | cons b t2 =>
        by_cases hb : b = '_'
        · subst hb
          rw [collapse_cons_us]
          exact ih
        · have hcb : collapseUnderscore (b :: t2) = b :: collapseUnderscore t2 := by
            apply collapse_cons_of
            intro hx; exact hb hx.1
          have h1 : collapseUnderscore ('_' :: b :: t2)
              = '_' :: collapseUnderscore (b :: t2) := by
            apply collapse_cons_of
            intro hx
            have : b = '_' := by simpa using hx.2
            exact hb this
          rw [h1, show ('_' :: collapseUnderscore (b :: t2)).dropWhile
                (fun c => c == '_')
              = (collapseUnderscore (b :: t2)).dropWhile (fun c => c == '_')
              from rfl]
          rw [hcb]
          rw [show ((b :: t2).dropWhile (fun c => c == '_')) = b :: t2 from by
            simp [List.dropWhile_cons, hb]]
          rw [hcb]
          simp [List.dropWhile_cons, hb]
    · have hca : collapseUnderscore (a :: t) = a :: collapseUnderscore t := by
        apply collapse_cons_of
        intro hx; exact ha hx.1
      rw [show ((a :: t).dropWhile (fun c => c == '_')) = a :: t from by
          simp [List.dropWhile_cons, ha],
        hca]
      simp [List.dropWhile_cons, ha, hca]

theorem strip_collapse_comm (l : List Char) :
    collapseUnderscore (stripUnderscore l) =
      stripUnderscore (collapseUnderscore l) := by
  unfold stripUnderscore
  rw [collapse_reverse, collapse_dropWhile, collapse_reverse, collapse_dropWhile]

/-- The spec's sanitization pipeline (collapse, then strip) and the code's
(strip, then collapse) produce the same base for every search term. -/
theorem specSanitizeBase_eq (term : String) :
    specSanitizeBase term = safeSearchBase term := by
  unfold specSanitizeBase safeSearchBase
  by_cases h : term = ""
  · simp only [h, if_pos rfl]
    decide
  · simp only [if_neg h]
    rw [strip_collapse_comm]

/-- Claim C7: the default export filename base sanitizes the search term
as specified — the spec's description of the pipeline (proved equal to the
code's, which strips edge underscores before collapsing runs), and its
three examples — and for every term and every export timestamp within
`datetime`'s ranges the full default filename matches
`<base>_\d{8}_\d{6}[+-]\d{4}\.json`. -/
theorem c7_default_filename :
    (∀ term : String, specSanitizeBase term = safeSearchBase term)
    ∧ safeSearchBase "Python/Java Developer @ NYC" = "python_java_developer_nyc"
    ∧ safeSearchBase "Python   &&&   Developer" = "python_developer"
    ∧ safeSearchBase "" = "jobs"
    ∧ ∀ (term : String) (ts : Timestamp), tsValid ts →
        filenameMatches (safeSearchBase term) (defaultFilename term ts) := by
  refine ⟨specSanitizeBase_eq, by decide, by decide, by decide, ?_⟩
  intro term ts _hts
  exact ⟨dateStr8 ts, timeStr6 ts, tzStr ts, rfl,
    dateStr8_length ts, dateStr8_digits ts,
    timeStr6_length ts, timeStr6_digits ts,
    tzStr_length ts, tzStr_head ts, tzStr_tail_digits ts⟩

/-- Witness for C7 at the search term of the repository's own test
(`test_filename_format`) and a concrete timestamp. -/
theorem c7_witness :
    tsValid witnessTs
    ∧ filenameMatches (safeSearchBase "data engineer")
        (defaultFilename "data engineer" witnessTs) :=
  ⟨by decide, c7_default_filename.2.2.2.2 "data engineer" witnessTs (by decide)⟩

/-! ## UUID rendering lemmas (C9) -/

end JobPacker
